import Mathlib

set_option maxRecDepth 4000

/-!
Verification of the password-strength evaluation logic of the repository
(`main.py`, class `PasswordStrengthChecker` and the presentation remapping in
`AppWindow.repeat_check_status` / `AppWindow.sequential_check_status`).

A Python string is embedded as a `List Char`.  The four checks are pure
functions of the password, translated line by line from the source.  Python's
`str.isdigit`, `str.islower` and `str.isupper` are modelled on the ASCII
fragment of their Unicode semantics (the classifiers agree with the ASCII
tables below on every ASCII character, and accept further characters outside
ASCII, e.g. æ, Æ, ²); crucially, `islower`/`isupper` only look at *cased*
characters and require at least one cased character, which is faithfully
reproduced here.  Theorems whose truth depends on classifying individual
characters are therefore quantified over ASCII passwords, where the
embedding provably coincides with the program; theorems that follow from the
branch and scan structure alone are stated for all passwords.
-/

/-- The lowercase class of `character_check`: `lower = set("abc...xyz")`. -/
def lowerChars : List Char := "abcdefghijklmnopqrstuvwxyz".toList

/-- The uppercase class of `character_check`: `upper = set("ABC...XYZ")`. -/
def upperChars : List Char := "ABCDEFGHIJKLMNOPQRSTUVWXYZ".toList

/-- The digit class of `character_check`: `digits = set("0123456789")`. -/
def digitChars : List Char := "0123456789".toList

/-- The special-symbol class of `character_check`, transcribed verbatim from
the raw Python string (non-ASCII symbols kept, written as unicode escapes). -/
def specialChars : List Char :=
  "~`!@#$%^&*()-_þʼ«æ…+=\x7b\x7d[]|/\\:;`><.?".toList

/-- ASCII fragment of Python's per-character lowercase classification. -/
def pyIsLowerChar (c : Char) : Bool := 'a' ≤ c && c ≤ 'z'

/-- ASCII fragment of Python's per-character uppercase classification. -/
def pyIsUpperChar (c : Char) : Bool := 'A' ≤ c && c ≤ 'Z'

/-- ASCII fragment of Python's per-character digit classification. -/
def pyIsDigitChar (c : Char) : Bool := '0' ≤ c && c ≤ '9'

/-- A character is cased when it is lowercase or uppercase (ASCII fragment). -/
def pyIsCasedChar (c : Char) : Bool := pyIsLowerChar c || pyIsUpperChar c

/-- Python `s.isdigit()`: nonempty and every character is a digit. -/
def pyIsDigit (s : List Char) : Bool := !s.isEmpty && s.all pyIsDigitChar

/-- Python `s.islower()`: at least one cased character, and every cased
character is lowercase (uncased characters are ignored). -/
def pyIsLower (s : List Char) : Bool :=
  s.any pyIsCasedChar && s.all (fun c => !pyIsCasedChar c || pyIsLowerChar c)

/-- Python `s.isupper()`: at least one cased character, and every cased
character is uppercase (uncased characters are ignored). -/
def pyIsUpper (s : List Char) : Bool :=
  s.any pyIsCasedChar && s.all (fun c => !pyIsCasedChar c || pyIsUpperChar c)

/-- `PasswordStrengthChecker.length_check`, translated from `main.py`
lines 40-50. -/
def length_check (p : List Char) : ℕ :=
  let n := p.length
  if 0 < n ∧ n < 8 then 0
  else if 8 ≤ n ∧ n < 12 then 1
  else if 12 ≤ n ∧ n < 16 then 2
  else if 16 ≤ n then 3
  else 0

/-- Python `any(c in cls for c in set(password))`: some character of the
password belongs to the class (deduplication by `set` does not change
existence). -/
def hasAnyFrom (cls p : List Char) : Bool := p.any (fun c => cls.contains c)

/-- `PasswordStrengthChecker.character_check`, translated from `main.py`
lines 52-68: add 1 per class present, then look the sum up in the dict
`{1: 0, 2: 1, 3: 2, 4: 3}` with default 0. -/
def character_check (p : List Char) : ℕ :=
  let score : ℕ :=
    (if hasAnyFrom lowerChars p then 1 else 0) +
    (if hasAnyFrom upperChars p then 1 else 0) +
    (if hasAnyFrom digitChars p then 1 else 0) +
    (if hasAnyFrom specialChars p then 1 else 0)
  match score with
  | 1 => 0
  | 2 => 1
  | 3 => 2
  | 4 => 3
  | _ => 0

/-- `PasswordStrengthChecker.repeat_check`, translated from `main.py`
lines 70-77: empty password returns 2; otherwise scan
`for i in range(len(p) - 2)` for `p[i] == p[i+1] == p[i+2]`. -/
def repeat_check (p : List Char) : ℕ :=
  if p.isEmpty then 2
  else if (List.range (p.length - 2)).any (fun i =>
      p.getD i default == p.getD (i + 1) default &&
      p.getD (i + 1) default == p.getD (i + 2) default)
  then 0 else 1

/-- The sliding-window chunks `p[i : i + 3]` for `i in range(len(p) - 2)`. -/
def windows3 (p : List Char) : List (List Char) :=
  (List.range (p.length - 2)).map (fun i => (p.drop i).take 3)

/-- `PasswordStrengthChecker.sequential_check`, translated from `main.py`
lines 79-87: empty password returns 2; otherwise scan the length-3 chunks
for `chunk.isdigit() or chunk.islower() or chunk.isupper()`. -/
def sequential_check (p : List Char) : ℕ :=
  if p.isEmpty then 2
  else if (windows3 p).any (fun chunk =>
      pyIsDigit chunk || pyIsLower chunk || pyIsUpper chunk)
  then 0 else 1

/-- `PasswordStrengthChecker.__init__` (`main.py` line 38):
`self.password = password or ""` — a missing password, and the empty
password itself, normalize to the empty string. -/
def normalizePassword (input : Option (List Char)) : List Char :=
  match input with
  | none => []
  | some p => if p.isEmpty then [] else p

/-- The presentation-boundary remapping of `AppWindow.repeat_check_status`
and `AppWindow.sequential_check_status` (`main.py` lines 225 and 239):
`3 if strength == 1 else strength`. -/
def displayRemap (strength : ℕ) : ℕ := if strength = 1 then 3 else strength

/-- `AppWindow.criteria_satisfied` (`main.py` lines 164-175): the checkbox
tick is shown exactly when the status equals 3. -/
def criteriaTick (status : ℕ) : Bool := status == 3

/-- Formalisation of the claim C1 wording for one window: the three
characters are all digits, all lowercase letters, or all uppercase
letters. -/
def specWindowAllSameClass (w : List Char) : Bool :=
  w.all pyIsDigitChar || w.all pyIsLowerChar || w.all pyIsUpperChar

/-- Formalisation of the claim C1 wording over the whole password: some
length-3 sliding window consists of same-class characters. -/
def specAnySameClassRun (p : List Char) : Bool :=
  (windows3 p).any specWindowAllSameClass

/-- What Python's chunk test `chunk.isdigit() or chunk.islower() or
chunk.isupper()` accepts, stated as a proposition: all characters digits
(nonempty), or at least one cased character with all cased characters
lowercase, or at least one cased character with all cased characters
uppercase. -/
def pySameClassChunk (w : List Char) : Prop :=
  (w ≠ [] ∧ ∀ c ∈ w, pyIsDigitChar c = true) ∨
  ((∃ c ∈ w, pyIsCasedChar c = true) ∧
    ∀ c ∈ w, pyIsCasedChar c = true → pyIsLowerChar c = true) ∨
  ((∃ c ∈ w, pyIsCasedChar c = true) ∧
    ∀ c ∈ w, pyIsCasedChar c = true → pyIsUpperChar c = true)

instance (w : List Char) : Decidable (pySameClassChunk w) := by
  unfold pySameClassChunk; infer_instance

/-- The number of the four character classes with at least one member in
the password, stated at the propositional level (used to characterise
`character_check`). -/
def classCount (p : List Char) : ℕ :=
  ([lowerChars, upperChars, digitChars, specialChars].filter
    (fun cls => decide (∃ c ∈ p, c ∈ cls))).length

/-- `hasAnyFrom` decides class presence. -/
theorem hasAnyFrom_iff (cls p : List Char) :
    hasAnyFrom cls p = true ↔ ∃ c ∈ p, c ∈ cls := by
  simp [hasAnyFrom, List.any_eq_true]

/-- `hasAnyFrom` as a `decide` of the presence proposition. -/
theorem hasAnyFrom_eq_decide (cls p : List Char) :
    hasAnyFrom cls p = decide (∃ c ∈ p, c ∈ cls) := by
  by_cases hx : ∃ c ∈ p, c ∈ cls
  · rw [(hasAnyFrom_iff cls p).mpr hx, decide_eq_true hx]
  · have h1 : hasAnyFrom cls p = false :=
      Bool.eq_false_iff.mpr (fun hh => hx ((hasAnyFrom_iff cls p).mp hh))
    rw [h1, decide_eq_false hx]

/-- A length-3 slice written through `getD`, valid when the window fits. -/
theorem drop_take3_eq (d : Char) (p : List Char) :
    ∀ i, i + 3 ≤ p.length →
      (p.drop i).take 3 = [p.getD i d, p.getD (i + 1) d, p.getD (i + 2) d] := by
  induction p with
  | nil => intro i h; simp at h
  | cons a t ih =>
      intro i h
      cases i with
      | zero =>
          rcases t with _ | ⟨b, _ | ⟨c, t2⟩⟩
          · simp at h
          · simp at h
          · simp [List.getD]
      | succ j =>
          have h2 : j + 3 ≤ t.length := by
            simp only [List.length_cons] at h; omega
          simpa [List.getD_cons_succ] using ih j h2

/-- The scan of `repeat_check` finds an index exactly when some length-3
window is three copies of one character. -/
theorem repeat_window_iff (p : List Char) :
    ((List.range (p.length - 2)).any (fun i =>
      p.getD i default == p.getD (i + 1) default &&
      p.getD (i + 1) default == p.getD (i + 2) default) = true)
    ↔ ∃ i c, i + 3 ≤ p.length ∧ (p.drop i).take 3 = [c, c, c] := by
  rw [List.any_eq_true]
  constructor
  · rintro ⟨i, hi, hb⟩
    rw [List.mem_range] at hi
    rw [Bool.and_eq_true, beq_iff_eq, beq_iff_eq] at hb
    refine ⟨i, p.getD (i + 2) default, by omega, ?_⟩
    rw [drop_take3_eq default p i (by omega), hb.1, hb.2]
  · rintro ⟨i, c, hle, hw⟩
    have h2 : [p.getD i default, p.getD (i + 1) default, p.getD (i + 2) default]
        = [c, c, c] := by
      rw [← drop_take3_eq default p i hle, hw]
    simp only [List.cons.injEq, and_true] at h2
    refine ⟨i, List.mem_range.mpr (by omega), ?_⟩
    rw [Bool.and_eq_true, beq_iff_eq, beq_iff_eq]
    exact ⟨by rw [h2.1, h2.2.1], by rw [h2.2.1, h2.2.2]⟩

/-- Pointwise bridge between the Bool `!a || b` and the implication form. -/
theorem bool_imp_equiv (a b : Bool) : ((!a || b) = true) ↔ (a = true → b = true) := by
  cases a <;> simp

/-- Python's chunk test, as a proposition. -/
theorem pyChunk_iff (w : List Char) :
    ((pyIsDigit w || pyIsLower w || pyIsUpper w) = true) ↔ pySameClassChunk w := by
  have hne : ((!w.isEmpty) = true) ↔ w ≠ [] := by cases w <;> simp
  have hl : ((w.all fun c => !pyIsCasedChar c || pyIsLowerChar c) = true) ↔
      ∀ c ∈ w, pyIsCasedChar c = true → pyIsLowerChar c = true := by
    rw [List.all_eq_true]
    exact forall_congr' fun c => forall_congr' fun _ => bool_imp_equiv _ _
  have hu : ((w.all fun c => !pyIsCasedChar c || pyIsUpperChar c) = true) ↔
      ∀ c ∈ w, pyIsCasedChar c = true → pyIsUpperChar c = true := by
    rw [List.all_eq_true]
    exact forall_congr' fun c => forall_congr' fun _ => bool_imp_equiv _ _
  unfold pyIsDigit pyIsLower pyIsUpper pySameClassChunk
  simp only [Bool.or_eq_true, Bool.and_eq_true]
  rw [hne, hl, hu, List.all_eq_true, List.any_eq_true, or_assoc]

/-- The scan of `sequential_check` fires exactly when some window satisfies
Python's chunk test. -/
theorem sequential_window_iff (p : List Char) :
    ((windows3 p).any (fun chunk =>
      pyIsDigit chunk || pyIsLower chunk || pyIsUpper chunk) = true)
    ↔ ∃ i, i + 3 ≤ p.length ∧ pySameClassChunk ((p.drop i).take 3) := by
  unfold windows3
  rw [List.any_eq_true]
  constructor
  · rintro ⟨ch, hch, hb⟩
    rw [List.mem_map] at hch
    obtain ⟨i, hi, rfl⟩ := hch
    rw [List.mem_range] at hi
    exact ⟨i, by omega, (pyChunk_iff _).mp hb⟩
  · rintro ⟨i, hle, hch⟩
    exact ⟨(p.drop i).take 3,
      List.mem_map.mpr ⟨i, List.mem_range.mpr (by omega), rfl⟩,
      (pyChunk_iff _).mpr hch⟩

/-- `repeat_check` on a nonempty password is the scan. -/
theorem repeat_check_ne_nil (p : List Char) (h : p ≠ []) :
    repeat_check p = if (List.range (p.length - 2)).any (fun i =>
      p.getD i default == p.getD (i + 1) default &&
      p.getD (i + 1) default == p.getD (i + 2) default) then 0 else 1 := by
  cases p with
  | nil => exact absurd rfl h
  | cons a t => simp [repeat_check]

/-- `sequential_check` on a nonempty password is the scan. -/
theorem sequential_check_ne_nil (p : List Char) (h : p ≠ []) :
    sequential_check p = if (windows3 p).any (fun chunk =>
      pyIsDigit chunk || pyIsLower chunk || pyIsUpper chunk) then 0 else 1 := by
  cases p with
  | nil => exact absurd rfl h
  | cons a t => simp [sequential_check]

/-- C1 (counterexample): the claim says the sequential check returns 0 iff
some length-3 window is all digits, all lowercase letters, or all uppercase
letters.  On "a1B2" no window is of that shape, yet the code returns 0
(the window "1B2" passes Python's `isupper`, which ignores the digits),
contradicting both directions of the claimed iff and the spec example
`evaluate_sequential_runs("a1B2") = 1`. -/
theorem c1_counterexample :
    sequential_check "a1B2".toList = 0 ∧
    specAnySameClassRun "a1B2".toList = false ∧
    sequential_check "a1B2".toList ≠ 1 := by
  decide

/-- C1 (amended): for every non-empty password made of ASCII characters —
the fragment on which the per-character classifiers above provably coincide
with Python's Unicode tables, so the embedding is exact there — the
sequential check returns 0 iff some length-3 sliding window passes Python's
chunk classification: all three characters are digits, or the window has a
cased character and every cased character in it is lowercase, or it has a
cased character and every cased character in it is uppercase; it returns 1
otherwise; the empty password returns 2.  (Outside ASCII the Python
classifiers accept further characters, e.g. æ, Æ, ², so the claim is stated
only on the ASCII domain.) -/
theorem c1_sequential_check_amended (p : List Char)
    (_hA : ∀ c ∈ p, c.toNat ≤ 127) :
    (p = [] → sequential_check p = 2) ∧
    (p ≠ [] →
      ((sequential_check p = 0 ↔
        ∃ i, i + 3 ≤ p.length ∧ pySameClassChunk ((p.drop i).take 3)) ∧
       (sequential_check p ≠ 0 → sequential_check p = 1))) := by
  constructor
  · intro h; simp [h, sequential_check]
  · intro h
    rw [sequential_check_ne_nil p h]
    have key := sequential_window_iff p
    cases hb : (windows3 p).any (fun chunk =>
        pyIsDigit chunk || pyIsLower chunk || pyIsUpper chunk) with
    | true =>
        rw [hb] at key
        rw [show (if (true : Bool) = true then (0 : ℕ) else 1) = 0 from rfl]
        exact ⟨⟨fun _ => key.mp rfl, fun _ => rfl⟩, fun hx => absurd rfl hx⟩
    | false =>
        rw [hb] at key
        rw [show (if (false : Bool) = true then (0 : ℕ) else 1) = 1 from rfl]
        refine ⟨⟨fun h1 => by omega, fun hx => absurd (key.mpr hx) (by decide)⟩,
          fun _ => rfl⟩

/-- C1 witness: the amended theorem applied at the ASCII password "abc". -/
theorem c1_witness : sequential_check "abc".toList = 0 :=
  ((c1_sequential_check_amended "abc".toList (by decide)).2 (by decide)).1.mpr
    ⟨0, by decide, by decide⟩

/-- C2 (counterexample): on "Tr0ub4dor&3" the sequential check returns 0,
not 1 as claimed (the window "r0u" has only lowercase cased characters, so
Python's `islower` accepts it). -/
theorem c2_counterexample :
    sequential_check "Tr0ub4dor&3".toList = 0 ∧
    sequential_check "Tr0ub4dor&3".toList ≠ 1 := by
  decide

/-- C2 (amended): for "Tr0ub4dor&3", length check 1, character-diversity
check 3, repeat check 1, and sequential check 0. -/
theorem c2_tr0ub4dor_scores :
    length_check "Tr0ub4dor&3".toList = 1 ∧
    character_check "Tr0ub4dor&3".toList = 3 ∧
    repeat_check "Tr0ub4dor&3".toList = 1 ∧
    sequential_check "Tr0ub4dor&3".toList = 0 := by
  decide

/-- C3: the length check buckets the password length: [0,7] scores 0,
[8,11] scores 1, [12,15] scores 2, 16 and above scores 3; in particular
the boundary lengths 8, 12, 16 score 1, 2, 3. -/
theorem c3_length_check (p : List Char) :
    (p.length ≤ 7 → length_check p = 0) ∧
    (8 ≤ p.length → p.length ≤ 11 → length_check p = 1) ∧
    (12 ≤ p.length → p.length ≤ 15 → length_check p = 2) ∧
    (16 ≤ p.length → length_check p = 3) ∧
    (p.length = 8 → length_check p = 1) ∧
    (p.length = 12 → length_check p = 2) ∧
    (p.length = 16 → length_check p = 3) := by
  refine ⟨fun h => ?_, fun h h2 => ?_, fun h h2 => ?_, fun h => ?_,
    fun h => ?_, fun h => ?_, fun h => ?_⟩ <;>
  · simp only [length_check]
    split_ifs <;> omega

/-- C3 witness: the theorem applied at the 8-character "password". -/
theorem c3_witness : length_check "password".toList = 1 :=
  (c3_length_check "password".toList).2.1 (by decide) (by decide)

/-- C4: the character-diversity check counts how many of the four classes
(lowercase, uppercase, digits, the fixed special set) are present, and
returns count - 1 for counts 1..4 and 0 when no class is present; the
spec's five examples hold. -/
theorem c4_character_check :
    (∀ p : List Char,
      character_check p = if classCount p = 0 then 0 else classCount p - 1) ∧
    character_check [] = 0 ∧
    character_check "abc".toList = 0 ∧
    character_check "abcABC".toList = 1 ∧
    character_check "abcABC123".toList = 2 ∧
    character_check "abcABC123!@#".toList = 3 := by
  refine ⟨fun p => ?_, by decide, by decide, by decide, by decide, by decide⟩
  cases h1 : hasAnyFrom lowerChars p <;>
  cases h2 : hasAnyFrom upperChars p <;>
  cases h3 : hasAnyFrom digitChars p <;>
  cases h4 : hasAnyFrom specialChars p <;>
  simp [character_check, classCount, List.filter_cons, ← hasAnyFrom_eq_decide,
    h1, h2, h3, h4]

/-- C5: the repeat check returns 2 on the empty password, 0 exactly when
some length-3 sliding window is three copies of one character, and 1
otherwise; the spec's three examples hold. -/
theorem c5_repeat_check (p : List Char) :
    (p = [] → repeat_check p = 2) ∧
    (p ≠ [] →
      ((repeat_check p = 0 ↔
        ∃ i c, i + 3 ≤ p.length ∧ (p.drop i).take 3 = [c, c, c]) ∧
       ((¬∃ i c, i + 3 ≤ p.length ∧ (p.drop i).take 3 = [c, c, c]) →
        repeat_check p = 1))) ∧
    repeat_check [] = 2 ∧
    repeat_check "aaa".toList = 0 ∧
    repeat_check "abcabc".toList = 1 := by
  refine ⟨fun h => by simp [h, repeat_check], fun h => ?_, by decide, by decide,
    by decide⟩
  rw [repeat_check_ne_nil p h]
  have key := repeat_window_iff p
  cases hb : (List.range (p.length - 2)).any (fun i =>
      p.getD i default == p.getD (i + 1) default &&
      p.getD (i + 1) default == p.getD (i + 2) default) with
  | true =>
      rw [hb] at key
      rw [show (if (true : Bool) = true then (0 : ℕ) else 1) = 0 from rfl]
      exact ⟨⟨fun _ => key.mp rfl, fun _ => rfl⟩,
        fun hx => absurd (key.mp rfl) hx⟩
  | false =>
      rw [hb] at key
      rw [show (if (false : Bool) = true then (0 : ℕ) else 1) = 1 from rfl]
      refine ⟨⟨fun h1 => by omega, fun hx => absurd (key.mpr hx) (by decide)⟩,
        fun _ => rfl⟩

/-- C5 witness: the theorem applied at "aaa". -/
theorem c5_witness : repeat_check "aaa".toList = 0 :=
  ((c5_repeat_check "aaa".toList).2.1 (by decide)).1.mpr
    ⟨0, 'a', by decide, by decide⟩

/-- C6: all four checks are total Lean functions (they are plain `def`s into
`ℕ`, so totality and absence of exceptions hold by construction), and the
constructor's normalization `password or ""` maps a missing password to the
empty string, so a null password yields exactly the scores of the empty
string. -/
theorem c6_normalization :
    (∀ input : Option (List Char), normalizePassword input = input.getD []) ∧
    normalizePassword none = [] ∧
    length_check (normalizePassword none) = length_check [] ∧
    character_check (normalizePassword none) = character_check [] ∧
    repeat_check (normalizePassword none) = repeat_check [] ∧
    sequential_check (normalizePassword none) = sequential_check [] := by
  refine ⟨?_, rfl, rfl, rfl, rfl, rfl⟩
  rintro (_ | p)
  · rfl
  · cases p with
    | nil => rfl
    | cons a t => rfl

/-- C7: the length and character-diversity checks always return a value in
`{0,1,2,3}` and the repeat and sequential checks a value in `{0,1,2}`. -/
theorem c7_score_ranges (p : List Char) :
    (length_check p = 0 ∨ length_check p = 1 ∨ length_check p = 2 ∨
      length_check p = 3) ∧
    (character_check p = 0 ∨ character_check p = 1 ∨ character_check p = 2 ∨
      character_check p = 3) ∧
    (repeat_check p = 0 ∨ repeat_check p = 1 ∨ repeat_check p = 2) ∧
    (sequential_check p = 0 ∨ sequential_check p = 1 ∨ sequential_check p = 2) := by
  refine ⟨?_, ?_, ?_, ?_⟩
  · simp only [length_check]; split_ifs <;> simp
  · simp only [character_check]; split <;> simp
  · simp only [repeat_check]; split_ifs <;> simp
  · simp only [sequential_check]; split_ifs <;> simp

/-- C8: at the evaluator/presentation boundary a repeat or sequential score
of 1 is remapped to 3 while 0 and 2 pass through unchanged, and the criteria
checkbox is ticked exactly for the remapped value 3, i.e. exactly for an
original score of 1 (among the possible scores 0, 1, 2). -/
theorem c8_display_remap (s : ℕ) (hs : s ≤ 2) :
    displayRemap 1 = 3 ∧ displayRemap 0 = 0 ∧ displayRemap 2 = 2 ∧
    (criteriaTick (displayRemap s) = true ↔ s = 1) := by
  refine ⟨rfl, rfl, rfl, ?_⟩
  interval_cases s <;> decide

/-- C8 witness: the remap theorem applied at score 1. -/
theorem c8_witness : criteriaTick (displayRemap 1) = true :=
  (c8_display_remap 1 (by decide)).2.2.2.mpr rfl

/-- C9: every check is deterministic and stateless — the four scores are
functions of the password string alone, so equal inputs yield equal
scores. -/
theorem c9_deterministic (p₁ p₂ : List Char) (h : p₁ = p₂) :
    length_check p₁ = length_check p₂ ∧
    character_check p₁ = character_check p₂ ∧
    repeat_check p₁ = repeat_check p₂ ∧
    sequential_check p₁ = sequential_check p₂ := by
  subst h
  exact ⟨rfl, rfl, rfl, rfl⟩

/-- C9 witness: the determinism theorem applied at "abc". -/
theorem c9_witness :
    length_check "abc".toList = length_check "abc".toList ∧
    character_check "abc".toList = character_check "abc".toList ∧
    repeat_check "abc".toList = repeat_check "abc".toList ∧
    sequential_check "abc".toList = sequential_check "abc".toList :=
  c9_deterministic "abc".toList "abc".toList rfl

/-- C10: passwords of length 1 or 2 score 1 on both the repeat and the
sequential check (the sliding window is empty), and the sentinel 2 is
returned by either check exactly for the empty password. -/
theorem c10_short_passwords (p : List Char) :
    ((p.length = 1 ∨ p.length = 2) →
      repeat_check p = 1 ∧ sequential_check p = 1) ∧
    (repeat_check p = 2 ↔ p = []) ∧
    (sequential_check p = 2 ↔ p = []) := by
  refine ⟨?_, ?_, ?_⟩
  · intro h
    have hne : p ≠ [] := by rintro rfl; simp at h
    have h0 : p.length - 2 = 0 := by omega
    constructor
    · rw [repeat_check_ne_nil p hne, h0]
      rfl
    · rw [sequential_check_ne_nil p hne]
      unfold windows3
      rw [h0]
      rfl
  · cases p with
    | nil => simp [repeat_check]
    | cons a t =>
        rw [repeat_check_ne_nil (a :: t) (by simp)]
        refine iff_of_false ?_ (by simp)
        split_ifs <;> decide
  · cases p with
    | nil => simp [sequential_check]
    | cons a t =>
        rw [sequential_check_ne_nil (a :: t) (by simp)]
        refine iff_of_false ?_ (by simp)
        split_ifs <;> decide

/-- C10 witness: the theorem applied at the one-character password "a". -/
theorem c10_witness : repeat_check ['a'] = 1 ∧ sequential_check ['a'] = 1 :=
  (c10_short_passwords ['a']).1 (Or.inl (by decide))
